import Mathlib

/-!
Shallow embedding of `src/commonsense_reasoning/peft/src/peft/tuners/lora.py`
(MoSLoRA fork of PEFT LoRA).  Numeric entries are modelled as rationals; the
exponential used by `torch.softmax` is passed as an explicit function
parameter `exq` (none of the verified claims depends on its values).  Dynamic
tensor shapes (2-D, 3-D, 4-D) are modelled by the inductive `Tens`, and every
Python runtime failure (AttributeError, einops / shape errors, the misspelled
`torch.enisum`) is an `Except.error` carrying a descriptive message.
-/

namespace MoSLoRA

/-- Sum of `f 0 + f 1 + ... + f (n-1)` over the rationals; models reductions
performed by dense matrix multiplication. -/
def qsum : Nat → (Nat → ℚ) → ℚ
  | 0, _ => 0
  | n + 1, f => qsum n f + f n

/-- A dense 2-D weight tensor: row count, column count, entry function.
Entries outside the declared range are irrelevant junk, exactly as memory
beyond a tensor is. -/
structure Mat where
  rows : Nat
  cols : Nat
  entry : Nat → Nat → ℚ

/-- `torch.Tensor.T` on a 2-D tensor. -/
def Mat.transpose (m : Mat) : Mat :=
  ⟨m.cols, m.rows, fun i j => m.entry j i⟩

/-- A dynamically shaped tensor of rank 2, 3 or 4, mirroring the shapes that
occur in `Linear.forward` (`len(shape)` dispatch in the source). -/
inductive Tens where
  | t2 (d0 d1 : Nat) (e : Nat → Nat → ℚ)
  | t3 (d0 d1 d2 : Nat) (e : Nat → Nat → Nat → ℚ)
  | t4 (d0 d1 d2 d3 : Nat) (e : Nat → Nat → Nat → Nat → ℚ)

/-- Elementwise scalar multiplication (`tensor * scaling` in the source). -/
def Tens.scale (c : ℚ) : Tens → Tens
  | .t2 a b e => .t2 a b (fun i j => c * e i j)
  | .t3 a b d e => .t3 a b d (fun i j k => c * e i j k)
  | .t4 a b d d3 e => .t4 a b d d3 (fun i j k l => c * e i j k l)

/-- Elementwise subtraction; dimensions are taken from the first operand
(only ever used on tensors of equal shape). -/
def Tens.sub : Tens → Tens → Tens
  | .t2 a b e, .t2 _ _ e2 => .t2 a b (fun i j => e i j - e2 i j)
  | .t3 a b d e, .t3 _ _ _ e2 => .t3 a b d (fun i j k => e i j k - e2 i j k)
  | .t4 a b d d3 e, .t4 _ _ _ _ e2 =>
      .t4 a b d d3 (fun i j k l => e i j k l - e2 i j k l)
  | t, _ => t

/-- Tensor equality: same rank, same dimensions, and equal entries at every
in-range index. -/
def Tens.teq : Tens → Tens → Prop
  | .t2 a b e, .t2 a2 b2 e2 =>
      a = a2 ∧ b = b2 ∧ ∀ i, i < a → ∀ j, j < b → e i j = e2 i j
  | .t3 a b d e, .t3 a2 b2 d2 e2 =>
      a = a2 ∧ b = b2 ∧ d = d2 ∧
        ∀ i, i < a → ∀ j, j < b → ∀ k, k < d → e i j k = e2 i j k
  | .t4 a b d c e, .t4 a2 b2 d2 c2 e2 =>
      a = a2 ∧ b = b2 ∧ d = d2 ∧ c = c2 ∧
        ∀ i, i < a → ∀ j, j < b → ∀ k, k < d → ∀ l, l < c → e i j k l = e2 i j k l
  | _, _ => False

instance Tens.decTeq : (x y : Tens) → Decidable (Tens.teq x y) := by
  intro x y
  cases x <;> cases y <;> simp only [Tens.teq] <;> infer_instance

/-- Error messages of the Python runtime, bound to names so that the code
below reads like the source. -/
def msgDisable : String :=
  "NotImplementedError: Disabling adapters is not supported for LoraLayer yet"

def msgNoLoraA : String := "AttributeError: lora_A"

def msgNoLoraR : String := "AttributeError: lora_R"

def msgNoLoraB : String := "AttributeError: lora_B"

def msgNoScaling : String := "AttributeError: scaling"

def msgEnisum : String := "AttributeError: module torch has no attribute enisum"

def msgEinops : String := "EinopsError: shape is not divisible by the number of heads"

def msgEinsum : String := "RuntimeError: einsum operands do not match subscripts"

def msgMatmul : String := "RuntimeError: mat shapes cannot be multiplied"

def msgReshape : String := "RuntimeError: invalid reshape size"

def msgAdd : String := "RuntimeError: tensor shapes do not match for add"

def msgDropoutNone : String :=
  "TypeError: comparison not supported between NoneType and float"

def msgAlphaNone : String :=
  "TypeError: unsupported operand NoneType for division"

/-- `nn.Linear` without bias applied to the last axis: `y = x @ W.T`.
Fails (as torch does) when the last dimension does not match `w.cols`. -/
def linearNB (w : Mat) : Tens → Except String Tens
  | .t2 a c e =>
      if c = w.cols then
        .ok (.t2 a w.rows (fun i o => qsum c (fun k => e i k * w.entry o k)))
      else .error msgMatmul
  | .t3 a b c e =>
      if c = w.cols then
        .ok (.t3 a b w.rows (fun i j o => qsum c (fun k => e i j k * w.entry o k)))
      else .error msgMatmul
  | .t4 a b d c e =>
      if c = w.cols then
        .ok (.t4 a b d w.rows
          (fun i j k o => qsum c (fun t => e i j k t * w.entry o t)))
      else .error msgMatmul

/-- `F.linear(x, W, bias)`: like `linearNB` but adds the optional bias. -/
def flinear (w : Mat) (bias : Option (Nat → ℚ)) : Tens → Except String Tens
  | .t2 a c e =>
      if c = w.cols then
        .ok (.t2 a w.rows (fun i o =>
          qsum c (fun k => e i k * w.entry o k) +
            (match bias with | none => 0 | some bf => bf o)))
      else .error msgMatmul
  | .t3 a b c e =>
      if c = w.cols then
        .ok (.t3 a b w.rows (fun i j o =>
          qsum c (fun k => e i j k * w.entry o k) +
            (match bias with | none => 0 | some bf => bf o)))
      else .error msgMatmul
  | .t4 a b d c e =>
      if c = w.cols then
        .ok (.t4 a b d w.rows (fun i j k o =>
          qsum c (fun t => e i j k t * w.entry o t) +
            (match bias with | none => 0 | some bf => bf o)))
      else .error msgMatmul

/-- `torch.softmax(x, dim=-1)` with the exponential supplied as `exq`. -/
def softmaxLast (exq : ℚ → ℚ) : Tens → Tens
  | .t2 a b e =>
      .t2 a b (fun i j => exq (e i j) / qsum b (fun k => exq (e i k)))
  | .t3 a b d e =>
      .t3 a b d (fun i j k => exq (e i j k) / qsum d (fun t => exq (e i j t)))
  | .t4 a b d c e =>
      .t4 a b d c (fun i j k l => exq (e i j k l) / qsum c (fun t => exq (e i j k t)))

/-- `torch.diag_embed`: expand the last axis into a diagonal square matrix.
A rank-4 input would produce rank 5, which never occurs in the source. -/
def diagEmbed : Tens → Except String Tens
  | .t2 a r e => .ok (.t3 a r r (fun i j k => if j = k then e i j else 0))
  | .t3 a b r e => .ok (.t4 a b r r (fun i j k l => if k = l then e i j k else 0))
  | .t4 _ _ _ _ _ => .error msgReshape

/-- `router_weight.reshape(shape[:-1] + (r, r))` in the mixer branch. -/
def reshapeMixer (r : Nat) : Tens → Except String Tens
  | .t2 a c e =>
      if c = r * r then .ok (.t3 a r r (fun i j k => e i (j * r + k)))
      else .error msgReshape
  | .t3 a b c e =>
      if c = r * r then .ok (.t4 a b r r (fun i j k l => e i j (k * r + l)))
      else .error msgReshape
  | .t4 _ _ _ _ _ => .error msgReshape

/-- The contraction step of the source:
`torch.enisum` (a misspelling, hence an AttributeError) when the router
weight is rank 3, and `torch.einsum('bnr, bnrk->bnk', left, router)` when it
is rank 4. -/
def einsumMoe (left routerW : Tens) : Except String Tens :=
  match routerW with
  | .t3 _ _ _ _ => .error msgEnisum
  | .t4 b n r k er =>
      match left with
      | .t3 b2 n2 r2 el =>
          if b2 = b ∧ n2 = n ∧ r2 = r then
            .ok (.t3 b n k (fun i j o => qsum r (fun t => el i j t * er i j t o)))
          else .error msgEinsum
      | _ => .error msgEinsum
  | .t2 _ _ _ => .error msgEinsum

/-- `rearrange(x, 'b (h d) -> (b h) d', h=4)` and
`rearrange(x, 'b s (h d) -> (b h) s d', h=4)`; einops fails when the feature
axis is not divisible by the head count. -/
def rearrangeSplit4 : Tens → Except String Tens
  | .t2 a c e =>
      if c % 4 = 0 then
        .ok (.t2 (a * 4) (c / 4) (fun i d => e (i / 4) (i % 4 * (c / 4) + d)))
      else .error msgEinops
  | .t3 a b c e =>
      if c % 4 = 0 then
        .ok (.t3 (a * 4) b (c / 4)
          (fun i j d => e (i / 4) j (i % 4 * (c / 4) + d)))
      else .error msgEinops
  | .t4 _ _ _ _ _ => .error msgEinops

/-- The inverse rearranges `'(b h) d -> b (h d)'` / `'(b h) s d -> b s (h d)'`
with `h=4`; the branch is chosen by the rank of the original input, exactly as
`len(dropout_x_shape) == 3` does in the source. -/
def rearrangeMergeBack (orig lr : Tens) : Except String Tens :=
  match orig with
  | .t3 _ _ _ _ =>
      match lr with
      | .t3 bh s d e =>
          if bh % 4 = 0 then
            .ok (.t3 (bh / 4) s (4 * d)
              (fun b j f => e (b * 4 + f / d) j (f % d)))
          else .error msgEinops
      | _ => .error msgEinops
  | .t2 _ _ _ =>
      match lr with
      | .t2 bh d e =>
          if bh % 4 = 0 then
            .ok (.t2 (bh / 4) (4 * d) (fun b f => e (b * 4 + f / d) (f % d)))
          else .error msgEinops
      | _ => .error msgEinops
  | .t4 _ _ _ _ _ => .error msgEinops

/-- The pseudo-random dropout mask draw, applied elementwise; a rank-2 input
uses the mask at third index 0. -/
def applyMask (dmask : Nat → Nat → Nat → ℚ) : Tens → Tens
  | .t2 a b e => .t2 a b (fun i j => e i j * dmask i j 0)
  | .t3 a b d e => .t3 a b d (fun i j k => e i j k * dmask i j k)
  | .t4 a b d c e => .t4 a b d c (fun i j k l => e i j k l * dmask i j k)

/-- `transpose(self.weight, self.fan_in_fan_out)` from `peft.utils`. -/
def transposeW (w : Mat) (fan_in_fan_out : Bool) : Mat :=
  if fan_in_fan_out then w.transpose else w

/-- State of `lora.Linear` (which inherits `nn.Linear` and `LoraLayer`).
The adapter sub-modules are `Option`s because the source creates them only
when `r > 0` (and `lora_R` only when the router flag is on); a `none` access
is the AttributeError the Python object would raise. -/
structure Linear where
  in_features : Nat
  out_features : Nat
  r : Nat
  lora_alpha : Option ℚ
  lora_dropout_p : ℚ
  fan_in_fan_out : Bool
  merge_weights : Bool
  lora_router : Bool
  lora_router_mixer : Bool
  merged : Bool
  disable_adapters : Bool
  training : Bool
  weight : Mat
  bias : Option (Nat → ℚ)
  lora_A : Option Mat
  lora_R : Option Mat
  lora_B : Option Mat
  scaling : Option ℚ

/-- The state built by `Linear.__init__` once the dynamic type checks have
passed (dropout and, for `r > 0`, alpha are actual numbers).  `w0` and `b0`
are the values `nn.Linear.__init__` / transplanting put into the frozen
weight and bias; `aI` and `rI` are the kaiming-uniform draws used by
`reset_parameters` for `lora_A` and `lora_R`; `lora_B` is zero-initialized
by `reset_parameters`.  The stored weight is transposed in place when
`fan_in_fan_out` is set, as the last line of `__init__` does. -/
def Linear.initCore (inF outF r : Nat) (lora_alpha : Option ℚ) (p : ℚ)
    (fan mw router mixer : Bool) (w0 : Nat → Nat → ℚ) (b0 : Option (Nat → ℚ))
    (aI rI : Nat → Nat → ℚ) : Linear :=
  { in_features := inF
    out_features := outF
    r := r
    lora_alpha := lora_alpha
    lora_dropout_p := p
    fan_in_fan_out := fan
    merge_weights := mw
    lora_router := router
    lora_router_mixer := mixer
    merged := false
    disable_adapters := false
    training := true
    weight := if fan then (Mat.mk outF inF w0).transpose else Mat.mk outF inF w0
    bias := b0
    lora_A := if 0 < r then some ⟨r, inF / 4, aI⟩ else none
    lora_R :=
      if 0 < r ∧ router = true then
        some (if mixer then ⟨r * r, inF / 4, rI⟩ else ⟨r, inF / 4, rI⟩)
      else none
    lora_B := if 0 < r then some ⟨outF / 4, r, fun _ _ => 0⟩ else none
    scaling := match lora_alpha with
      | some a => if 0 < r then some (a / (r : ℚ)) else none
      | none => none }

/-- `Linear.__init__`: `LoraLayer.__init__` compares the dropout argument
against `0.0`, which is a TypeError when the config left it `None`; then, in
the `r > 0` branch, `self.lora_alpha / self.r` is a TypeError when alpha was
left `None`.  Otherwise construction succeeds with `initCore`. -/
def Linear.init (inF outF r : Nat) (lora_alpha lora_dropout : Option ℚ)
    (fan mw router mixer : Bool) (w0 : Nat → Nat → ℚ) (b0 : Option (Nat → ℚ))
    (aI rI : Nat → Nat → ℚ) : Except String Linear :=
  match lora_dropout with
  | none => .error msgDropoutNone
  | some p =>
      if 0 < r then
        match lora_alpha with
        | none => .error msgAlphaNone
        | some _ =>
            .ok (Linear.initCore inF outF r lora_alpha p fan mw router mixer
              w0 b0 aI rI)
      else
        .ok (Linear.initCore inF outF r lora_alpha p fan mw router mixer
          w0 b0 aI rI)

/-- The frozen base path of `forward`:
`F.linear(x, transpose(self.weight, self.fan_in_fan_out), bias=self.bias)`. -/
def orgResult (l : Linear) (x : Tens) : Except String Tens :=
  flinear (transposeW l.weight l.fan_in_fan_out) l.bias x

/-- The router/normalization step of `forward` (source lines 406-413 after
the `lora_R` application): softmax plus `diag_embed` or the mixer reshape
when the router flag is on; the raw router output otherwise.  It is passed
the `lora_router` / `lora_router_mixer` flags and the rank it reads from the
layer. -/
def routerStep (exq : ℚ → ℚ) (lora_router lora_router_mixer : Bool) (r : Nat)
    (rw0 : Tens) : Except String Tens :=
  if lora_router then
    let sm := softmaxLast exq rw0
    if lora_router_mixer then reshapeMixer r sm else diagEmbed sm
  else .ok rw0

/-- `self.lora_dropout(x)`: the `nn.Dropout` module when the probability is
positive (active only in training mode, multiplying by the pseudo-random
mask draw `dmask`), the identity otherwise. -/
def loraDropout (l : Linear) (dmask : Nat → Nat → Nat → ℚ) (x : Tens) : Tens :=
  if 0 < l.lora_dropout_p ∧ l.training = true then applyMask dmask x else x

/-- The low-rank path of `forward` (source lines 395-425): dropout, head
split, `lora_A`, `lora_R`, router step, contraction, `lora_B`, scaling and
the inverse head rearrange.  Each missing attribute (adapter sub-modules, or
`scaling` when `r = 0`) is the AttributeError the source would raise. -/
def loraPath (exq : ℚ → ℚ) (l : Linear) (dmask : Nat → Nat → Nat → ℚ)
    (x : Tens) : Except String Tens :=
  match l.lora_A with
  | none => .error msgNoLoraA
  | some lA =>
      match rearrangeSplit4 (loraDropout l dmask x) with
      | .error e => .error e
      | .ok dropout_x =>
          match linearNB lA dropout_x with
          | .error e => .error e
          | .ok left_result =>
              match l.lora_R with
              | none => .error msgNoLoraR
              | some lR =>
                  match linearNB lR dropout_x with
                  | .error e => .error e
                  | .ok rw0 =>
                      match routerStep exq l.lora_router l.lora_router_mixer
                          l.r rw0 with
                      | .error e => .error e
                      | .ok router_weight =>
                          match einsumMoe left_result router_weight with
                          | .error e => .error e
                          | .ok moe_result =>
                              match l.lora_B with
                              | none => .error msgNoLoraB
                              | some lB =>
                                  match l.scaling with
                                  | none => .error msgNoScaling
                                  | some s =>
                                      match linearNB lB moe_result with
                                      | .error e => .error e
                                      | .ok br =>
                                          rearrangeMergeBack x (Tens.scale s br)

/-- Elementwise tensor addition `lora_result + org_result`; torch raises
when the shapes do not match (no broadcast case arises for these shapes). -/
def torchAdd (lr og : Tens) : Except String Tens :=
  match lr, og with
  | .t2 a b e, .t2 a2 b2 e2 =>
      if a = a2 ∧ b = b2 then
        .ok (.t2 a b (fun i j => e i j + e2 i j))
      else .error msgAdd
  | .t3 a b d e, .t3 a2 b2 d2 e2 =>
      if a = a2 ∧ b = b2 ∧ d = d2 then
        .ok (.t3 a b d (fun i j k => e i j k + e2 i j k))
      else .error msgAdd
  | .t4 a b d c e, .t4 a2 b2 d2 c2 e2 =>
      if a = a2 ∧ b = b2 ∧ d = d2 ∧ c = c2 then
        .ok (.t4 a b d c (fun i j k t => e i j k t + e2 i j k t))
      else .error msgAdd
  | _, _ => .error msgAdd

/-- `Linear.forward` (source lines 389-433): the disabled-adapters guard,
then the low-rank path plus the frozen base path.  Dtype bookkeeping is not
modelled (a single numeric type stands for all precisions). -/
def Linear.forward (exq : ℚ → ℚ) (l : Linear) (dmask : Nat → Nat → Nat → ℚ)
    (x : Tens) : Except String Tens :=
  if l.disable_adapters then .error msgDisable
  else
    match loraPath exq l dmask x with
    | .error e => .error e
    | .ok lora_result =>
        match orgResult l x with
        | .error e => .error e
        | .ok org_result => torchAdd lora_result org_result

/-- `Linear.train(mode)` (source lines 369-378): toggles the training flag of
the base layer and the adapter sub-modules (an AttributeError when they are
missing) and unconditionally sets `merged = False`.  No tensor arithmetic is
performed on the frozen weight. -/
def Linear.train (l : Linear) (mode : Bool) : Except String Linear :=
  match l.lora_A with
  | none => .error msgNoLoraA
  | some _ =>
      if l.lora_router && l.lora_R.isNone then .error msgNoLoraR
      else
        match l.lora_B with
        | none => .error msgNoLoraB
        | some _ => .ok { l with training := mode, merged := false }

/-- `Linear.eval` (source lines 380-387): `nn.Linear.eval(self)` is
`nn.Module.eval`, which returns `self.train(False)` through dynamic
dispatch, i.e. the overridden `Linear.train` above; the subsequent
`lora_X.eval()` calls only clear the training flags of sub-modules already
covered by that call. -/
def Linear.eval (l : Linear) : Except String Linear :=
  Linear.train l false

/-- The substring test Python writes as `sub in s` (used on parameter
names). -/
def containsSub (s sub : String) : Bool :=
  (s.splitOn sub).length != 1

def loraMarker : String := "lora_"

def biasMarker : String := "bias"

def biasNone : String := "none"

def biasAll : String := "all"

def biasLoraOnly : String := "lora_only"

/-- `mark_only_lora_as_trainable` (source lines 263-278) acting on the flat
`named_parameters()` view of the model: a list of (name, requires_grad)
pairs.  `loraLayerBiasNames` models the module scan of the `lora_only`
branch (the names of bias parameters owned by LoraLayer modules); the
unknown-mode branch is the NotImplementedError of the source. -/
def mark_only_lora_as_trainable (ps : List (String × Bool)) (bias : String)
    (loraLayerBiasNames : List String) : Except String (List (String × Bool)) :=
  let ps1 := ps.map (fun nb =>
    if containsSub nb.1 loraMarker then nb else (nb.1, false))
  if bias = biasNone then .ok ps1
  else if bias = biasAll then
    .ok (ps1.map (fun nb =>
      if containsSub nb.1 biasMarker then (nb.1, true) else nb))
  else if bias = biasLoraOnly then
    .ok (ps1.map (fun nb =>
      if loraLayerBiasNames.contains nb.1 then (nb.1, true) else nb))
  else .error "NotImplementedError"

/-- `target_modules` of the config: either a single regex pattern string or
a list of module-name suffixes. -/
inductive TargetSelector where
  | pat (s : String)
  | names (l : List String)

/-- String form of the selector as it appears in the f-string of the
ValueError raised by `_find_and_replace`. -/
def selToString : TargetSelector → String
  | .pat s => s
  | .names l => toString l

/-- The per-key match of `_find_and_replace` (source lines 156-159):
`re.fullmatch` for a pattern string (the regex engine is external, so the
match function is a parameter), suffix match against any entry for a list. -/
def targetModuleFound (fullmatch : String → String → Bool) :
    TargetSelector → String → Bool
  | .pat p, key => fullmatch p key
  | .names l, key => l.any (fun t => key.endsWith t)

/-- Message of the ValueError raised when no module matched (source lines
197-201). -/
def targetNotFoundMsg (sel : TargetSelector) : String :=
  "Target modules " ++ selToString sel ++
    " not found in the base model. Please check the target modules and try again."

/-- The replacement loop of `_find_and_replace`: every module whose dotted
name matches the selector is replaced by the adapter layer `repl` builds
from it; all other modules are left untouched.  The host network is modelled
by its `named_modules()` list. -/
def replaceLoop {α : Type} (fullmatch : String → String → Bool)
    (sel : TargetSelector) (repl : String → α → α)
    (model : List (String × α)) : List (String × α) :=
  model.map (fun km =>
    if targetModuleFound fullmatch sel km.1 then (km.1, repl km.1 km.2) else km)

/-- `LoraModel._find_and_replace` (source lines 133-201), restricted to the
non-quantized path: runs the replacement loop and raises the ValueError
naming the selector when no key matched at all. -/
def find_and_replace {α : Type} (fullmatch : String → String → Bool)
    (sel : TargetSelector) (repl : String → α → α)
    (model : List (String × α)) : Except String (List (String × α)) :=
  let is_target_modules_in_base_model :=
    model.any (fun km => targetModuleFound fullmatch sel km.1)
  let newModel := replaceLoop fullmatch sel repl model
  if is_target_modules_in_base_model then .ok newModel
  else .error (targetNotFoundMsg sel)

/-- A module of the adapted network as `LoraModel._set_adapter_layers`
sees it: either a LoraLayer instance or anything else. -/
inductive NetModule where
  | loraLinear (l : Linear)
  | other (name : String)

/-- `LoraModel._set_adapter_layers` (source lines 240-243): sets the
`disable_adapters` flag on every LoraLayer module. -/
def set_adapter_layers (net : List NetModule) (enabled : Bool) : List NetModule :=
  net.map (fun m =>
    match m with
    | .loraLinear l =>
        .loraLinear { l with disable_adapters := if enabled then false else true }
    | .other n => .other n)

/-- `LoraModel.enable_adapter_layers` (source lines 245-246). -/
def enable_adapter_layers (net : List NetModule) : List NetModule :=
  set_adapter_layers net true

/-- `LoraModel.disable_adapter_layers` (source lines 248-249). -/
def disable_adapter_layers (net : List NetModule) : List NetModule :=
  set_adapter_layers net false

/-- Extract the tensor of a successful computation (junk on error; only ever
read under an `isOk` hypothesis). -/
def getT (e : Except String Tens) : Tens :=
  match e with
  | .ok t => t
  | .error _ => .t2 0 0 (fun _ _ => 0)

/-- All-ones 2-argument entry function, used for concrete instances. -/
def ones2 : Nat → Nat → ℚ := fun _ _ => 1

/-- All-ones 3-argument entry function, used for concrete dropout masks and
3-D inputs. -/
def onesM : Nat → Nat → Nat → ℚ := fun _ _ _ => 1

/-- A concrete stand-in for the exponential when evaluating the model on
explicit inputs (the claims never depend on its values). -/
def exqOne : ℚ → ℚ := fun _ => 1

/-- A concrete rank-2 input of shape (1, 4). -/
def xT2 : Tens := .t2 1 4 ones2

/-- A concrete rank-3 input of shape (1, 1, 4). -/
def xT3 : Tens := .t3 1 1 4 onesM

/-- A concrete freshly constructed 4-to-4 layer with `r = 1`, router on,
mixer off, `alpha = 2`, dropout 0, no bias. -/
def layerRouter : Linear :=
  Linear.initCore 4 4 1 (some 2) 0 false false true false ones2 none ones2 ones2

/-- Same concrete layer but with the router flag off. -/
def layerNoRouter : Linear :=
  Linear.initCore 4 4 1 (some 2) 0 false false false false ones2 none ones2 ones2

/-- Same concrete layer but with `merge_weights = true` (for the merge
claims). -/
def layerMergeW : Linear :=
  Linear.initCore 4 4 1 (some 2) 0 false true true false ones2 none ones2 ones2

end MoSLoRA

namespace MoSLoRA

theorem qsum_eq_zero (n : Nat) (f : Nat → ℚ) (h : ∀ i, i < n → f i = 0) :
    qsum n f = 0 := by
  induction n with
  | zero => rfl
  | succ m ih =>
    simp only [qsum]
    rw [ih (fun i hi => h i (Nat.lt_succ_of_lt hi)), h m (Nat.lt_succ_self m)]
    simp

/-- C1: contrary to the claim, a layer constructed with `r = 0` does not
short-circuit the adapter math: `forward` unconditionally dereferences
`lora_A`, which `__init__` never created, so every call raises an
AttributeError instead of returning the frozen base-path computation. -/
theorem c1_r0_forward_raises_attribute_error (inF outF : Nat)
    (alpha : Option ℚ) (p : ℚ) (fan mw router mixer : Bool)
    (w0 : Nat → Nat → ℚ) (b0 : Option (Nat → ℚ)) (aI rI : Nat → Nat → ℚ)
    (exq : ℚ → ℚ) (dmask : Nat → Nat → Nat → ℚ) (x : Tens) :
    Linear.forward exq
        (Linear.initCore inF outF 0 alpha p fan mw router mixer w0 b0 aI rI)
        dmask x
      = .error msgNoLoraA := rfl

/-- C2: contrary to the claim, a rank-2 input `(batch, in_features)` never
succeeds: on that shape the router weight has rank 3 and the source calls
the nonexistent `torch.enisum` (a misspelling of `einsum`), raising an
AttributeError.  Here: a 4-to-4 layer with `r = 1`, both dimensions
divisible by 4, router on, on an input of shape (1, 4). -/
theorem c2_enisum_crashes_2d_input :
    Linear.forward exqOne layerRouter onesM xT2 = .error msgEnisum := rfl

/-- C3 counterexample: with the routing flag off the call does not complete:
`lora_R` is only constructed when the flag is on, yet `forward`
unconditionally applies it, so the concrete call raises an AttributeError
instead of succeeding with the raw router output as gate. -/
theorem c3_counterexample_router_off_crashes :
    Linear.forward exqOne layerNoRouter onesM xT3 = .error msgNoLoraR := rfl

/-- C3 amended: for every layer constructed with `r > 0` and the routing
flag off, and every rank-3 input whose feature dimension (divisible by 4)
matches the layer, `forward` fails with the `lora_R` AttributeError — the
router projection is never computed because the sub-module was never
constructed. -/
theorem c3_amended_router_off_raises (inF outF r : Nat) (a p : ℚ)
    (fan mw mixer : Bool) (w0 : Nat → Nat → ℚ) (b0 : Option (Nat → ℚ))
    (aI rI : Nat → Nat → ℚ) (exq : ℚ → ℚ) (dmask : Nat → Nat → Nat → ℚ)
    (b s : Nat) (xe : Nat → Nat → Nat → ℚ) (hin : inF % 4 = 0) :
    Linear.forward exq
        (Linear.initCore inF outF (r + 1) (some a) p fan mw false mixer
          w0 b0 aI rI)
        dmask (.t3 b s inF xe)
      = .error msgNoLoraR := by
  have hA : (Linear.initCore inF outF (r + 1) (some a) p fan mw false mixer
      w0 b0 aI rI).lora_A = some ⟨r + 1, inF / 4, aI⟩ := by
    simp [Linear.initCore]
  have hR : (Linear.initCore inF outF (r + 1) (some a) p fan mw false mixer
      w0 b0 aI rI).lora_R = none := by
    simp [Linear.initCore]
  unfold Linear.forward loraPath
  rw [hA, hR]
  have hdis : (Linear.initCore inF outF (r + 1) (some a) p fan mw false mixer
      w0 b0 aI rI).disable_adapters = false := rfl
  rw [hdis]
  simp only [Bool.false_eq_true, if_false]
  obtain ⟨de, hde⟩ :
      ∃ de, loraDropout (Linear.initCore inF outF (r + 1) (some a) p fan mw
          false mixer w0 b0 aI rI) dmask (Tens.t3 b s inF xe)
        = Tens.t3 b s inF de := by
    unfold loraDropout
    split
    · exact ⟨_, rfl⟩
    · exact ⟨_, rfl⟩
  rw [hde]
  simp [rearrangeSplit4, hin, linearNB]

/-- C3 amended, witness: the general theorem applied to the concrete
4-to-4 layer with the router off and the concrete (1, 1, 4) input. -/
theorem c3_amended_witness :
    Linear.forward exqOne
        (Linear.initCore 4 4 (0 + 1) (some 2) 0 false false false false
          ones2 none ones2 ones2)
        onesM (.t3 1 1 4 onesM)
      = .error msgNoLoraR :=
  c3_amended_router_off_raises 4 4 0 2 0 false false false ones2 none
    ones2 ones2 exqOne onesM 1 1 onesM (by decide)

/-- C10: constructing with the dropout probability left at its `None`
default fails at the `lora_dropout > 0.0` comparison in
`LoraLayer.__init__` (before any adapter parameter exists), and — with the
dropout provided — an `alpha` left at its `None` default fails at the
`self.lora_alpha / self.r` scaling computation in the `r > 0` branch. -/
theorem c10_unset_dropout_or_alpha_fails (inF outF r : Nat)
    (alpha : Option ℚ) (p : ℚ) (fan mw router mixer : Bool)
    (w0 : Nat → Nat → ℚ) (b0 : Option (Nat → ℚ)) (aI rI : Nat → Nat → ℚ) :
    Linear.init inF outF (r + 1) alpha none fan mw router mixer w0 b0 aI rI
        = .error msgDropoutNone
    ∧ Linear.init inF outF (r + 1) none (some p) fan mw router mixer
        w0 b0 aI rI
        = .error msgAlphaNone := by
  constructor
  · rfl
  · simp [Linear.init, Nat.succ_pos]

/-- C4 counterexample: on the concrete layer with `r = 1` and
`merge_weights = true`, entering eval leaves `merged = false` (the claim
says it becomes true) and leaves the frozen weight untouched; no folding of
the low-rank delta happens anywhere in `train`/`eval`. -/
theorem c4_counterexample_eval_does_not_merge :
    Except.map Linear.merged (Linear.eval layerMergeW) = .ok false
    ∧ Except.map (fun l => l.weight.entry 0 0) (Linear.eval layerMergeW)
        = .ok (1 : ℚ) := by
  constructor <;> rfl

/-- C4 amended: for every layer constructed with `r > 0` and
`merge_weights = true`, `eval` succeeds but performs no merge — the frozen
weight is unchanged and `merged` remains `false` — and a subsequent `train`
likewise leaves the weight unchanged and (unconditionally) sets
`merged = false`. -/
theorem c4_amended_eval_and_train_never_merge (inF outF r : Nat) (a p : ℚ)
    (fan router mixer : Bool) (w0 : Nat → Nat → ℚ) (b0 : Option (Nat → ℚ))
    (aI rI : Nat → Nat → ℚ) :
    ∃ l2 l3,
      Linear.eval (Linear.initCore inF outF (r + 1) (some a) p fan true
          router mixer w0 b0 aI rI) = .ok l2
      ∧ l2.merged = false
      ∧ l2.weight = (Linear.initCore inF outF (r + 1) (some a) p fan true
          router mixer w0 b0 aI rI).weight
      ∧ Linear.train l2 true = .ok l3
      ∧ l3.merged = false
      ∧ l3.weight = (Linear.initCore inF outF (r + 1) (some a) p fan true
          router mixer w0 b0 aI rI).weight := by
  refine
    ⟨{ Linear.initCore inF outF (r + 1) (some a) p fan true router mixer
        w0 b0 aI rI with training := false, merged := false },
     { Linear.initCore inF outF (r + 1) (some a) p fan true router mixer
        w0 b0 aI rI with training := true, merged := false },
     ?_, rfl, rfl, ?_, rfl, rfl⟩
  · unfold Linear.eval Linear.train
    cases router <;> simp [Linear.initCore, Nat.succ_pos]
  · unfold Linear.train
    cases router <;> simp [Linear.initCore, Nat.succ_pos]

/-- C7: `disable_adapter_layers` marks every adapter layer disabled, is
idempotent, and any layer whose `disable_adapters` flag is set fails every
`forward` call with the NotImplementedError of the source instead of
producing output. -/
theorem c7_disable_is_idempotent_and_forward_fails (net : List NetModule) :
    (∀ m ∈ disable_adapter_layers net, ∀ l, m = .loraLinear l →
        l.disable_adapters = true)
    ∧ disable_adapter_layers (disable_adapter_layers net)
        = disable_adapter_layers net
    ∧ (∀ (l : Linear), l.disable_adapters = true →
        ∀ (exq : ℚ → ℚ) (dmask : Nat → Nat → Nat → ℚ) (x : Tens),
          Linear.forward exq l dmask x = .error msgDisable) := by
  refine ⟨?_, ?_, ?_⟩
  · intro m hm l hml
    simp only [disable_adapter_layers, set_adapter_layers, List.mem_map] at hm
    obtain ⟨m0, _, hmap⟩ := hm
    cases m0 with
    | loraLinear l0 =>
        subst hml
        cases hmap
        rfl
    | other n =>
        subst hml
        cases hmap
  · induction net with
    | nil => rfl
    | cons hd tl ih =>
        cases hd <;>
          simp only [disable_adapter_layers, set_adapter_layers,
            List.map_cons] at ih ⊢ <;>
          rw [ih]
  · intro l hdis exq dmask x
    unfold Linear.forward
    rw [hdis]
    simp

/-- C7 witness: the theorem applied to a one-layer network; its third
conjunct evaluated on the concrete disabled layer. -/
theorem c7_witness :
    Linear.forward exqOne { layerRouter with disable_adapters := true }
        onesM xT3 = .error msgDisable :=
  (c7_disable_is_idempotent_and_forward_fails []).2.2
    { layerRouter with disable_adapters := true } rfl exqOne onesM xT3

/-- C9 counterexample: the freshly constructed concrete layer (router on,
`lora_B` zero-initialized) does not return the base path on the rank-2
input (1, 4): the call dies in `torch.enisum`, while the base path itself
evaluates fine. -/
theorem c9_counterexample_2d_input_crashes :
    Linear.forward exqOne layerRouter onesM xT2 = .error msgEnisum
    ∧ (orgResult layerRouter xT2).isOk = true := by
  constructor <;> rfl

/-- C5: when the target selector matches no module name at all,
`_find_and_replace` raises the ValueError whose message names the selector,
and the replacement loop leaves the module tree exactly as it was (no
module is replaced). -/
theorem c5_unmatched_selector_fails_without_mutation {α : Type}
    (fullmatch : String → String → Bool) (sel : TargetSelector)
    (repl : String → α → α) (model : List (String × α))
    (h : ∀ km ∈ model, targetModuleFound fullmatch sel km.1 = false) :
    find_and_replace fullmatch sel repl model = .error (targetNotFoundMsg sel)
    ∧ replaceLoop fullmatch sel repl model = model := by
  have hloop : replaceLoop fullmatch sel repl model = model := by
    induction model with
    | nil => rfl
    | cons hd tl ih =>
        simp only [replaceLoop, List.map_cons] at ih ⊢
        rw [h hd (List.mem_cons_self hd tl)]
        simp only [Bool.false_eq_true, if_false]
        rw [ih (fun km hm => h km (List.mem_cons_of_mem hd hm))]
  have hany : model.any (fun km => targetModuleFound fullmatch sel km.1)
      = false := by
    rw [List.any_eq_false]
    intro km hm
    simp [h km hm]
  refine ⟨?_, hloop⟩
  unfold find_and_replace
  rw [hany]
  simp

/-- C5 witness: a one-module network named `q` against the suffix selector
`[v]`: construction fails with the selector-naming error and the loop is
the identity. -/
theorem c5_witness :
    find_and_replace (fun _ _ => false) (.names (["v"])) (fun _ (m : Nat) => m)
        ([("q", 1)])
      = .error (targetNotFoundMsg (.names (["v"])))
    ∧ replaceLoop (fun _ _ => false) (.names (["v"])) (fun _ (m : Nat) => m)
        ([("q", 1)])
      = [("q", 1)] :=
  c5_unmatched_selector_fails_without_mutation (fun _ _ => false)
    (.names (["v"])) (fun _ m => m) ([("q", 1)]) (by with_unfolding_all decide)

/-- C6: with bias mode `none`, the mask pass over a fully trainable
parameter list leaves exactly the parameters whose names contain the
`lora_` marker trainable and freezes every other parameter. -/
theorem c6_mask_none_trainable_iff_lora (ps : List (String × Bool))
    (lbn : List String) (h : ∀ nb ∈ ps, nb.2 = true) :
    mark_only_lora_as_trainable ps biasNone lbn
      = .ok (ps.map (fun nb => (nb.1, containsSub nb.1 loraMarker))) := by
  unfold mark_only_lora_as_trainable
  rw [if_pos rfl]
  congr 1
  induction ps with
  | nil => rfl
  | cons hd tl ih =>
      simp only [List.map_cons]
      rw [ih (fun nb hm => h nb (List.mem_cons_of_mem hd hm))]
      have hhd := h hd (List.mem_cons_self hd tl)
      cases hc : containsSub hd.1 loraMarker <;> simp [hc, ← hhd]

/-- C6 witness: a two-parameter network, one base parameter and one adapter
parameter, both initially trainable. -/
theorem c6_witness :
    mark_only_lora_as_trainable
        ([("base.weight", true), ("base.lora_A.weight", true)]) biasNone []
      = .ok (([("base.weight", true), ("base.lora_A.weight", true)]).map
          (fun nb => (nb.1, containsSub nb.1 loraMarker))) :=
  c6_mask_none_trainable_iff_lora
    ([("base.weight", true), ("base.lora_A.weight", true)]) [] (by decide)

theorem Tens.teq_symm {t u : Tens} (h : Tens.teq t u) : Tens.teq u t := by
  cases t <;> cases u <;> simp only [Tens.teq] at h ⊢
  · obtain ⟨rfl, rfl, he⟩ := h
    exact ⟨rfl, rfl, fun i hi j hj => (he i hi j hj).symm⟩
  · obtain ⟨rfl, rfl, rfl, he⟩ := h
    exact ⟨rfl, rfl, rfl, fun i hi j hj k hk => (he i hi j hj k hk).symm⟩
  · obtain ⟨rfl, rfl, rfl, rfl, he⟩ := h
    exact ⟨rfl, rfl, rfl, rfl,
      fun i hi j hj k hk l hl => (he i hi j hj k hk l hl).symm⟩

theorem Tens.teq_trans {t u v : Tens} (h1 : Tens.teq t u) (h2 : Tens.teq u v) :
    Tens.teq t v := by
  cases t <;> cases u <;> simp only [Tens.teq] at h1 <;> cases v <;>
    simp only [Tens.teq] at h2 ⊢
  · obtain ⟨rfl, rfl, he1⟩ := h1
    obtain ⟨rfl, rfl, he2⟩ := h2
    exact ⟨rfl, rfl, fun i hi j hj => (he1 i hi j hj).trans (he2 i hi j hj)⟩
  · obtain ⟨rfl, rfl, rfl, he1⟩ := h1
    obtain ⟨rfl, rfl, rfl, he2⟩ := h2
    exact ⟨rfl, rfl, rfl,
      fun i hi j hj k hk => (he1 i hi j hj k hk).trans (he2 i hi j hj k hk)⟩
  · obtain ⟨rfl, rfl, rfl, rfl, he1⟩ := h1
    obtain ⟨rfl, rfl, rfl, rfl, he2⟩ := h2
    exact ⟨rfl, rfl, rfl, rfl, fun i hi j hj k hk l hl =>
      (he1 i hi j hj k hk l hl).trans (he2 i hi j hj k hk l hl)⟩

theorem Tens.teq_scale (c : ℚ) {t u : Tens} (h : Tens.teq t u) :
    Tens.teq (Tens.scale c t) (Tens.scale c u) := by
  cases t <;> cases u <;> simp only [Tens.teq, Tens.scale] at h ⊢
  · obtain ⟨rfl, rfl, he⟩ := h
    exact ⟨rfl, rfl, fun i hi j hj => by rw [he i hi j hj]⟩
  · obtain ⟨rfl, rfl, rfl, he⟩ := h
    exact ⟨rfl, rfl, rfl, fun i hi j hj k hk => by rw [he i hi j hj k hk]⟩
  · obtain ⟨rfl, rfl, rfl, rfl, he⟩ := h
    exact ⟨rfl, rfl, rfl, rfl,
      fun i hi j hj k hk l hl => by rw [he i hi j hj k hk l hl]⟩

theorem Tens.scale_scale (c s : ℚ) (t : Tens) :
    Tens.scale (c * s) t = Tens.scale c (Tens.scale s t) := by
  cases t with
  | t2 a b e => simp only [Tens.scale]; congr 1; funext i j; ring
  | t3 a b d e => simp only [Tens.scale]; congr 1; funext i j k; ring
  | t4 a b d c2 e => simp only [Tens.scale]; congr 1; funext i j k l; ring

theorem rearrangeMergeBack_scale (c : ℚ) (x t : Tens) :
    rearrangeMergeBack x (Tens.scale c t)
      = Except.map (Tens.scale c) (rearrangeMergeBack x t) := by
  cases x <;> cases t <;>
    simp only [rearrangeMergeBack, Tens.scale, Except.map] <;>
    first
    | rfl
    | (split <;> rfl)

theorem loraPath_scale (exq : ℚ → ℚ) (l : Linear) (c : ℚ) (aa : Option ℚ)
    (dmask : Nat → Nat → Nat → ℚ) (x : Tens) :
    loraPath exq
        { l with lora_alpha := aa,
                 scaling := Option.map (fun s => c * s) l.scaling } dmask x
      = Except.map (Tens.scale c) (loraPath exq l dmask x) := by
  unfold loraPath loraDropout
  dsimp only
  cases l.lora_A with
  | none => rfl
  | some lA =>
      dsimp only
      cases rearrangeSplit4
          (if 0 < l.lora_dropout_p ∧ l.training = true
            then applyMask dmask x else x) with
      | error e => rfl
      | ok dropout_x =>
          dsimp only
          cases linearNB lA dropout_x with
          | error e => rfl
          | ok left_result =>
              dsimp only
              cases l.lora_R with
              | none => rfl
              | some lR =>
                  dsimp only
                  cases linearNB lR dropout_x with
                  | error e => rfl
                  | ok rw0 =>
                      dsimp only
                      cases routerStep exq l.lora_router l.lora_router_mixer
                          l.r rw0 with
                      | error e => rfl
                      | ok router_weight =>
                          dsimp only
                          cases einsumMoe left_result router_weight with
                          | error e => rfl
                          | ok moe_result =>
                              dsimp only
                              cases l.lora_B with
                              | none => rfl
                              | some lB =>
                                  dsimp only
                                  cases l.scaling with
                                  | none => rfl
                                  | some s =>
                                      dsimp only [Option.map]
                                      cases linearNB lB moe_result with
                                      | error e => rfl
                                      | ok br =>
                                          dsimp only
                                          rw [Tens.scale_scale,
                                            rearrangeMergeBack_scale]

theorem torchAdd_sub_teq (lr og y : Tens) (h : torchAdd lr og = .ok y) :
    Tens.teq (Tens.sub y og) lr := by
  cases lr with
  | t2 a b e =>
      cases og with
      | t2 a2 b2 e2 =>
          simp only [torchAdd] at h
          split at h
          · cases h
            exact ⟨rfl, rfl, fun i _ j _ => by dsimp [Tens.sub]; ring⟩
          · cases h
      | t3 _ _ _ _ => simp [torchAdd] at h
      | t4 _ _ _ _ _ => simp [torchAdd] at h
  | t3 a b d e =>
      cases og with
      | t2 _ _ _ => simp [torchAdd] at h
      | t3 a2 b2 d2 e2 =>
          simp only [torchAdd] at h
          split at h
          · cases h
            exact ⟨rfl, rfl, rfl, fun i _ j _ k _ => by dsimp [Tens.sub]; ring⟩
          · cases h
      | t4 _ _ _ _ _ => simp [torchAdd] at h
  | t4 a b d c e =>
      cases og with
      | t2 _ _ _ => simp [torchAdd] at h
      | t3 _ _ _ _ => simp [torchAdd] at h
      | t4 a2 b2 d2 c2 e2 =>
          simp only [torchAdd] at h
          split at h
          · cases h
            exact ⟨rfl, rfl, rfl, rfl,
              fun i _ j _ k _ l _ => by dsimp [Tens.sub]; ring⟩
          · cases h

theorem torchAdd_scale_isOk (c : ℚ) (lr og y : Tens)
    (h : torchAdd lr og = .ok y) :
    ∃ y2, torchAdd (Tens.scale c lr) og = .ok y2 := by
  cases lr with
  | t2 a b e =>
      cases og with
      | t2 a2 b2 e2 =>
          simp only [torchAdd, Tens.scale] at h ⊢
          by_cases hc : a = a2 ∧ b = b2
          · rw [if_pos hc]; exact ⟨_, rfl⟩
          · rw [if_neg hc] at h; cases h
      | t3 _ _ _ _ => simp [torchAdd] at h
      | t4 _ _ _ _ _ => simp [torchAdd] at h
  | t3 a b d e =>
      cases og with
      | t2 _ _ _ => simp [torchAdd] at h
      | t3 a2 b2 d2 e2 =>
          simp only [torchAdd, Tens.scale] at h ⊢
          by_cases hc : a = a2 ∧ b = b2 ∧ d = d2
          · rw [if_pos hc]; exact ⟨_, rfl⟩
          · rw [if_neg hc] at h; cases h
      | t4 _ _ _ _ _ => simp [torchAdd] at h
  | t4 a b d c4 e =>
      cases og with
      | t2 _ _ _ => simp [torchAdd] at h
      | t3 _ _ _ _ => simp [torchAdd] at h
      | t4 a2 b2 d2 c2 e2 =>
          simp only [torchAdd, Tens.scale] at h ⊢
          by_cases hc : a = a2 ∧ b = b2 ∧ d = d2 ∧ c4 = c2
          · rw [if_pos hc]; exact ⟨_, rfl⟩
          · rw [if_neg hc] at h; cases h

/-- C8: with dropout disabled (probability 0) and all other parameters held
fixed, whenever `forward` succeeds with scaling numerator `alpha`, it also
succeeds with `alpha / 2`, and the low-rank contribution — the forward
output minus the frozen base path — computed with `alpha / 2` is exactly
half the contribution computed with `alpha`. -/
theorem c8_halving_alpha_halves_lora_contribution (inF outF r : Nat) (a : ℚ)
    (fan mw router mixer : Bool) (w0 : Nat → Nat → ℚ) (b0 : Option (Nat → ℚ))
    (aI rI : Nat → Nat → ℚ) (exq : ℚ → ℚ) (dmask : Nat → Nat → Nat → ℚ)
    (x : Tens)
    (h1 : (Linear.forward exq
        (Linear.initCore inF outF (r + 1) (some a) 0 fan mw router mixer
          w0 b0 aI rI) dmask x).isOk = true) :
    (Linear.forward exq
        (Linear.initCore inF outF (r + 1) (some (a / 2)) 0 fan mw router mixer
          w0 b0 aI rI) dmask x).isOk = true
    ∧ Tens.teq
        (Tens.sub
          (getT (Linear.forward exq
            (Linear.initCore inF outF (r + 1) (some (a / 2)) 0 fan mw router
              mixer w0 b0 aI rI) dmask x))
          (getT (orgResult
            (Linear.initCore inF outF (r + 1) (some a) 0 fan mw router mixer
              w0 b0 aI rI) x)))
        (Tens.scale (1 / 2)
          (Tens.sub
            (getT (Linear.forward exq
              (Linear.initCore inF outF (r + 1) (some a) 0 fan mw router mixer
                w0 b0 aI rI) dmask x))
            (getT (orgResult
              (Linear.initCore inF outF (r + 1) (some a) 0 fan mw router mixer
                w0 b0 aI rI) x)))) := by
  set L1 := Linear.initCore inF outF (r + 1) (some a) 0 fan mw router mixer
    w0 b0 aI rI with hL1
  set L2 := Linear.initCore inF outF (r + 1) (some (a / 2)) 0 fan mw router
    mixer w0 b0 aI rI with hL2def
  have hdis : L1.disable_adapters = false := rfl
  have hdis2 : L2.disable_adapters = false := rfl
  unfold Linear.forward at h1
  rw [hdis] at h1
  simp only [Bool.false_eq_true, if_false] at h1
  cases hlp : loraPath exq L1 dmask x with
  | error e => rw [hlp] at h1; exact Bool.noConfusion h1
  | ok lr =>
      rw [hlp] at h1
      dsimp only at h1
      cases hor : orgResult L1 x with
      | error e => rw [hor] at h1; exact Bool.noConfusion h1
      | ok og =>
          rw [hor] at h1
          dsimp only at h1
          cases hadd : torchAdd lr og with
          | error e => rw [hadd] at h1; exact Bool.noConfusion h1
          | ok y1 =>
              have hL2 : L2 =
                  { L1 with
                    lora_alpha := some (a / 2)
                    scaling := Option.map (fun s => (1 / 2 : ℚ) * s)
                      L1.scaling } := by
                rw [hL1, hL2def]
                simp only [Linear.initCore, Nat.succ_pos, if_true, Option.map]
                congr 1
                ring_nf
              have hlp2 : loraPath exq L2 dmask x
                  = .ok (Tens.scale (1 / 2) lr) := by
                rw [hL2, loraPath_scale, hlp]
                rfl
              obtain ⟨y2, hadd2⟩ :=
                torchAdd_scale_isOk (1 / 2) lr og y1 hadd
              have hor2 : orgResult L2 x = .ok og := by
                rw [hL2]; exact hor
              have hf2 : Linear.forward exq L2 dmask x = .ok y2 := by
                unfold Linear.forward
                rw [hdis2]
                simp only [Bool.false_eq_true, if_false]
                rw [hlp2, hor2]
                exact hadd2
              have hf1 : Linear.forward exq L1 dmask x = .ok y1 := by
                unfold Linear.forward
                rw [hdis]
                simp only [Bool.false_eq_true, if_false]
                rw [hlp, hor]
                exact hadd
              constructor
              · rw [hf2]; rfl
              · rw [hf2, hf1]
                simp only [getT]
                exact Tens.teq_trans
                  (torchAdd_sub_teq _ _ _ hadd2)
                  (Tens.teq_symm (Tens.teq_scale (1 / 2)
                    (torchAdd_sub_teq _ _ _ hadd)))

/-- C8 witness: the scaling theorem applied to the concrete 4-to-4 layer
with `r = 1`, `alpha = 2`, router on, on the concrete (1, 1, 4) input, where
the forward call concretely succeeds. -/
theorem c8_witness :
    (Linear.forward exqOne
        (Linear.initCore 4 4 (0 + 1) (some ((2 : ℚ) / 2)) 0 false false true
          false ones2 none ones2 ones2) onesM xT3).isOk = true
    ∧ Tens.teq
        (Tens.sub
          (getT (Linear.forward exqOne
            (Linear.initCore 4 4 (0 + 1) (some ((2 : ℚ) / 2)) 0 false false
              true false ones2 none ones2 ones2) onesM xT3))
          (getT (orgResult
            (Linear.initCore 4 4 (0 + 1) (some (2 : ℚ)) 0 false false true
              false ones2 none ones2 ones2) xT3)))
        (Tens.scale (1 / 2)
          (Tens.sub
            (getT (Linear.forward exqOne
              (Linear.initCore 4 4 (0 + 1) (some (2 : ℚ)) 0 false false true
                false ones2 none ones2 ones2) onesM xT3))
            (getT (orgResult
              (Linear.initCore 4 4 (0 + 1) (some (2 : ℚ)) 0 false false true
                false ones2 none ones2 ones2) xT3)))) :=
  c8_halving_alpha_halves_lora_contribution 4 4 0 2 false false true false
    ones2 none ones2 ones2 exqOne onesM xT3 (by rfl)

theorem qsum_zero (n : Nat) : qsum n (fun _ => (0 : ℚ)) = 0 := by
  induction n with
  | zero => rfl
  | succ m ih => simp [qsum, ih]

theorem c9_router_ok_nomixer (inF outF r : Nat) (a p : ℚ) (fan mw : Bool)
    (w0 : Nat → Nat → ℚ) (b0 : Option (Nat → ℚ)) (aI rI : Nat → Nat → ℚ)
    (exq : ℚ → ℚ) (dmask : Nat → Nat → Nat → ℚ) (b s : Nat)
    (xe : Nat → Nat → Nat → ℚ) (hin : inF % 4 = 0) (hout : outF % 4 = 0) :
    ∃ y base,
      Linear.forward exq
          (Linear.initCore inF outF (r + 1) (some a) p fan mw true false
            w0 b0 aI rI) dmask (.t3 b s inF xe) = .ok y
      ∧ orgResult
          (Linear.initCore inF outF (r + 1) (some a) p fan mw true false
            w0 b0 aI rI) (.t3 b s inF xe) = .ok base
      ∧ Tens.teq y base := by
  set L := Linear.initCore inF outF (r + 1) (some a) p fan mw true false
    w0 b0 aI rI with hLdef
  have hb4 : b * 4 / 4 = b := by omega
  have hout4 : 4 * (outF / 4) = outF := by omega
  have hdis : L.disable_adapters = false := rfl
  have hrt : L.lora_router = true := rfl
  have hmx : L.lora_router_mixer = false := rfl
  have hr : L.r = r + 1 := rfl
  have hA : L.lora_A = some ⟨r + 1, inF / 4, aI⟩ := by
    rw [hLdef]; simp [Linear.initCore, Nat.succ_pos]
  have hR : L.lora_R = some ⟨r + 1, inF / 4, rI⟩ := by
    rw [hLdef]; simp [Linear.initCore, Nat.succ_pos]
  have hB : L.lora_B = some ⟨outF / 4, r + 1, fun _ _ => 0⟩ := by
    rw [hLdef]; simp [Linear.initCore, Nat.succ_pos]
  have hsc : L.scaling = some (a / ((r + 1 : ℕ) : ℚ)) := by
    rw [hLdef]; simp [Linear.initCore, Nat.succ_pos]
  obtain ⟨de, hde⟩ : ∃ de, loraDropout L dmask (Tens.t3 b s inF xe)
      = Tens.t3 b s inF de := by
    unfold loraDropout
    split
    · exact ⟨_, rfl⟩
    · exact ⟨_, rfl⟩
  obtain ⟨lf, hlp, hlf0⟩ :
      ∃ lf, loraPath exq L dmask (Tens.t3 b s inF xe)
          = .ok (Tens.t3 b s outF lf) ∧ ∀ i j k, lf i j k = (0 : ℚ) := by
    unfold loraPath
    rw [hA, hde, hR, hrt, hmx, hr, hB, hsc]
    simp only [rearrangeSplit4, linearNB, routerStep, softmaxLast, diagEmbed,
      einsumMoe, rearrangeMergeBack, Tens.scale, hin, hb4, hout4,
      Nat.mul_mod_left, qsum_zero, mul_zero, zero_mul, eq_self_iff_true,
      if_true, and_self, and_true, true_and, Bool.false_eq_true, if_false,
      reduceIte]
    exact ⟨_, rfl, fun i j k => by simp [qsum_zero]⟩
  have hw : transposeW L.weight L.fan_in_fan_out = Mat.mk outF inF w0 := by
    rw [hLdef]; cases fan <;> rfl
  obtain ⟨oge, horg⟩ : ∃ oge, orgResult L (Tens.t3 b s inF xe)
      = .ok (Tens.t3 b s outF oge) := by
    unfold orgResult
    rw [hw]
    simp only [flinear, eq_self_iff_true, if_true, reduceIte]
    exact ⟨_, rfl⟩
  refine ⟨Tens.t3 b s outF (fun i j k => lf i j k + oge i j k),
    Tens.t3 b s outF oge, ?_, horg, ?_⟩
  · unfold Linear.forward
    simp only [hdis, Bool.false_eq_true, if_false]
    rw [hlp, horg]
    simp [torchAdd]
  · refine ⟨rfl, rfl, rfl, fun i hi j hj k hk => ?_⟩
    show lf i j k + oge i j k = oge i j k
    rw [hlf0 i j k, zero_add]

theorem c9_router_ok_mixer (inF outF r : Nat) (a p : ℚ) (fan mw : Bool)
    (w0 : Nat → Nat → ℚ) (b0 : Option (Nat → ℚ)) (aI rI : Nat → Nat → ℚ)
    (exq : ℚ → ℚ) (dmask : Nat → Nat → Nat → ℚ) (b s : Nat)
    (xe : Nat → Nat → Nat → ℚ) (hin : inF % 4 = 0) (hout : outF % 4 = 0) :
    ∃ y base,
      Linear.forward exq
          (Linear.initCore inF outF (r + 1) (some a) p fan mw true true
            w0 b0 aI rI) dmask (.t3 b s inF xe) = .ok y
      ∧ orgResult
          (Linear.initCore inF outF (r + 1) (some a) p fan mw true true
            w0 b0 aI rI) (.t3 b s inF xe) = .ok base
      ∧ Tens.teq y base := by
  set L := Linear.initCore inF outF (r + 1) (some a) p fan mw true true
    w0 b0 aI rI with hLdef
  have hb4 : b * 4 / 4 = b := by omega
  have hout4 : 4 * (outF / 4) = outF := by omega
  have hdis : L.disable_adapters = false := rfl
  have hrt : L.lora_router = true := rfl
  have hmx : L.lora_router_mixer = true := rfl
  have hr : L.r = r + 1 := rfl
  have hA : L.lora_A = some ⟨r + 1, inF / 4, aI⟩ := by
    rw [hLdef]; simp [Linear.initCore, Nat.succ_pos]
  have hR : L.lora_R = some ⟨(r + 1) * (r + 1), inF / 4, rI⟩ := by
    rw [hLdef]; simp [Linear.initCore, Nat.succ_pos]
  have hB : L.lora_B = some ⟨outF / 4, r + 1, fun _ _ => 0⟩ := by
    rw [hLdef]; simp [Linear.initCore, Nat.succ_pos]
  have hsc : L.scaling = some (a / ((r + 1 : ℕ) : ℚ)) := by
    rw [hLdef]; simp [Linear.initCore, Nat.succ_pos]
  obtain ⟨de, hde⟩ : ∃ de, loraDropout L dmask (Tens.t3 b s inF xe)
      = Tens.t3 b s inF de := by
    unfold loraDropout
    split
    · exact ⟨_, rfl⟩
    · exact ⟨_, rfl⟩
  obtain ⟨lf, hlp, hlf0⟩ :
      ∃ lf, loraPath exq L dmask (Tens.t3 b s inF xe)
          = .ok (Tens.t3 b s outF lf) ∧ ∀ i j k, lf i j k = (0 : ℚ) := by
    unfold loraPath
    rw [hA, hde, hR, hrt, hmx, hr, hB, hsc]
    simp only [rearrangeSplit4, linearNB, routerStep, softmaxLast,
      reshapeMixer, einsumMoe, rearrangeMergeBack, Tens.scale, hin, hb4,
      hout4, Nat.mul_mod_left, qsum_zero, mul_zero, zero_mul,
      eq_self_iff_true, if_true, and_self, and_true, true_and,
      Bool.false_eq_true, if_false, reduceIte]
    exact ⟨_, rfl, fun i j k => by simp [qsum_zero]⟩
  have hw : transposeW L.weight L.fan_in_fan_out = Mat.mk outF inF w0 := by
    rw [hLdef]; cases fan <;> rfl
  obtain ⟨oge, horg⟩ : ∃ oge, orgResult L (Tens.t3 b s inF xe)
      = .ok (Tens.t3 b s outF oge) := by
    unfold orgResult
    rw [hw]
    simp only [flinear, eq_self_iff_true, if_true, reduceIte]
    exact ⟨_, rfl⟩
  refine ⟨Tens.t3 b s outF (fun i j k => lf i j k + oge i j k),
    Tens.t3 b s outF oge, ?_, horg, ?_⟩
  · unfold Linear.forward
    simp only [hdis, Bool.false_eq_true, if_false]
    rw [hlp, horg]
    simp [torchAdd]
  · refine ⟨rfl, rfl, rfl, fun i hi j hj k hk => ?_⟩
    show lf i j k + oge i j k = oge i j k
    rw [hlf0 i j k, zero_add]

/-- C9 counterexample (continued) and amendment: for every freshly
constructed layer with `r > 0` and router enabled whose dimensions are
divisible by 4, and every rank-3 input `(batch, sequence, in_features)`,
`forward` succeeds and equals the frozen base path exactly, because
`reset_parameters` zero-initializes `lora_B` and so the whole low-rank path
contributes zero.  (Rank-2 inputs are excluded: they crash in
`torch.enisum`, see the counterexample.) -/
theorem c9_amended_fresh_3d_equals_base (inF outF r : Nat) (a p : ℚ)
    (fan mw mixer : Bool) (w0 : Nat → Nat → ℚ) (b0 : Option (Nat → ℚ))
    (aI rI : Nat → Nat → ℚ) (exq : ℚ → ℚ) (dmask : Nat → Nat → Nat → ℚ)
    (b s : Nat) (xe : Nat → Nat → Nat → ℚ)
    (hin : inF % 4 = 0) (hout : outF % 4 = 0) :
    ∃ y base,
      Linear.forward exq
          (Linear.initCore inF outF (r + 1) (some a) p fan mw true mixer
            w0 b0 aI rI) dmask (.t3 b s inF xe) = .ok y
      ∧ orgResult
          (Linear.initCore inF outF (r + 1) (some a) p fan mw true mixer
            w0 b0 aI rI) (.t3 b s inF xe) = .ok base
      ∧ Tens.teq y base := by
  cases mixer with
  | false =>
      exact c9_router_ok_nomixer inF outF r a p fan mw w0 b0 aI rI exq dmask
        b s xe hin hout
  | true =>
      exact c9_router_ok_mixer inF outF r a p fan mw w0 b0 aI rI exq dmask
        b s xe hin hout

/-- C9 amended, witness: the concrete fresh 4-to-4 router layer on the
concrete (1, 1, 4) input. -/
theorem c9_amended_witness :
    ∃ y base,
      Linear.forward exqOne
          (Linear.initCore 4 4 (0 + 1) (some 2) 0 false false true false
            ones2 none ones2 ones2) onesM (.t3 1 1 4 onesM) = .ok y
      ∧ orgResult
          (Linear.initCore 4 4 (0 + 1) (some 2) 0 false false true false
            ones2 none ones2 ones2) (.t3 1 1 4 onesM) = .ok base
      ∧ Tens.teq y base :=
  c9_amended_fresh_3d_equals_base 4 4 0 2 0 false false false ones2 none
    ones2 ones2 exqOne onesM 1 1 onesM (by decide) (by decide)

end MoSLoRA
